import Mathlib

/-!
Shallow embedding of the conversation-orchestration core of the
auto-import sales agent (backend/agent.py and backend/errors.py).

Python strings are modelled as Lean strings; Python dictionaries of
slots as functions from a fixed key type to optional values; Python
floats as exact rationals (float arithmetic is modelled exactly, with
parsed decimal literals kept in exact mantissa-and-scale form); Python
`int(x)` on a float as truncation toward zero; Python exceptions as
`Except`.  Lowercasing models `str.lower` on the ASCII
and Cyrillic ranges that the program manipulates.
-/

namespace AutoImport

/-- Model of `str.lower` on one character: ASCII A-Z and Cyrillic А-Я / Ё. -/
def pyLowerChar (c : Char) : Char :=
  if 65 ≤ c.toNat && c.toNat ≤ 90 then Char.ofNat (c.toNat + 32)
  else if 1040 ≤ c.toNat && c.toNat ≤ 1071 then Char.ofNat (c.toNat + 32)
  else if c.toNat = 1025 then Char.ofNat 1105
  else c

/-- Model of `str.lower` on a character list. -/
def pyLowerList (cs : List Char) : List Char := cs.map pyLowerChar

/-- Characters stripped by Python `str.strip()` (ASCII whitespace model). -/
def pyIsSpace (c : Char) : Bool :=
  c = ' ' || c = '\t' || c = '\n' || c = '\r' || c.toNat = 11 || c.toNat = 12

/-- Model of `not message or not message.strip()`: the message is empty or
whitespace-only. -/
def pyBlank (s : String) : Bool := s.toList.all pyIsSpace

/-- Predicate `startsWithSeq pat cs` holds when `pat` is an initial segment of `cs`. -/
def startsWithSeq : List Char → List Char → Bool
  | [], _ => true
  | _ :: _, [] => false
  | p :: ps, c :: cs => p = c && startsWithSeq ps cs

/-- Predicate `containsSeq pat cs` models Python substring containment `pat in cs`. -/
def containsSeq (pat : List Char) : List Char → Bool
  | [] => startsWithSeq pat []
  | c :: cs => startsWithSeq pat (c :: cs) || containsSeq pat cs

/-- Value of a list of decimal digit characters. -/
def digitsToNat (cs : List Char) : Nat :=
  cs.foldl (fun n c => 10 * n + (c.toNat - 48)) 0

/-- Python `int(x)` on a float, modelled on ℚ: truncation toward zero. -/
def pyInt (q : Rat) : Int := Int.tdiv q.num (q.den : Int)

/-! ## Budget normalizer (`AutoImportAgent._parse_budget`) -/

/-- The dynamically-typed argument of `_parse_budget`: a Python `int`,
`float`, `str`, or any other value (e.g. `None`). -/
inductive BudgetInput where
  | int (n : Int)
  | float (q : Rat)
  | str (s : String)
  | other
deriving DecidableEq

/-- Model of `value.lower().replace(" ", "").replace(",", ".")` on the character list. -/
def normalizeBudgetText (s : String) : List Char :=
  ((pyLowerList s.toList).filter (fun c => c ≠ ' ')).map
    (fun c => if c = ',' then '.' else c)

/-- A character matched by the regex class `[\d.]`. -/
def isNumChar (c : Char) : Bool := c.isDigit || c = '.'

/-- First match of `re.findall(r'[\d.]+', value)`: the first maximal run of
digits and dots, if any. -/
def firstNumRun (cs : List Char) : Option (List Char) :=
  let rest := cs.dropWhile (fun c => !(isNumChar c))
  if rest.isEmpty then none else some (rest.takeWhile isNumChar)

/-- The exact value of a parsed Python float literal `digits[.digits]`:
the nonnegative rational `mant / 10 ^ scale`, kept in exact
decimal form (the float arithmetic of the source is modelled exactly). -/
structure DecNum where
  mant : Nat
  scale : Nat
deriving DecidableEq

/-- Python `float(run)` for a run of digits and dots: defined exactly when the
run holds at least one digit and at most one dot; `none` models `ValueError`. -/
def pyFloatOfRun (cs : List Char) : Option DecNum :=
  if cs.count '.' = 0 then
    if cs.isEmpty then none else some ⟨digitsToNat cs, 0⟩
  else if cs.count '.' = 1 then
    let ip := cs.takeWhile (fun c => c ≠ '.')
    let fp := (cs.dropWhile (fun c => c ≠ '.')).tail
    if ip.isEmpty && fp.isEmpty then none
    else some ⟨digitsToNat (ip ++ fp), fp.length⟩
  else none

/-- Python `int(n * k)` for the exact nonnegative value `n = mant / 10 ^ scale`
and a natural multiplier `k`: truncation equals floor here. -/
def intTimes (d : DecNum) (k : Nat) : Nat := d.mant * k / 10 ^ d.scale

/-- The test `num < 100` on the exact value. -/
def ltHundred (d : DecNum) : Bool := d.mant < 100 * 10 ^ d.scale

/-- Model of `'млн' in value or 'миллион' in value` on the normalized text. -/
def millionMarker (cs : List Char) : Bool :=
  containsSeq "млн".toList cs || containsSeq "миллион".toList cs

/-- Model of `'тыс' in value or 'тысяч' in value` on the normalized text. -/
def thousandMarker (cs : List Char) : Bool :=
  containsSeq "тыс".toList cs || containsSeq "тысяч".toList cs

/-- Model of `AutoImportAgent._parse_budget`.  `Except.error ()` models an uncaught
`ValueError` raised by `float(...)` on a digit-and-dot run that is not a
valid float literal. -/
def parse_budget : BudgetInput → Except Unit (Option Int)
  | .int n => .ok (some n)
  | .float q => .ok (some (pyInt q))
  | .str s =>
    let v := normalizeBudgetText s
    match firstNumRun v with
    | none => .ok none
    | some run =>
      match pyFloatOfRun run with
      | none => .error ()
      | some num =>
        if millionMarker v then .ok (some ((intTimes num 1000000 : Nat) : Int))
        else if thousandMarker v then .ok (some ((intTimes num 1000 : Nat) : Int))
        else if ltHundred num then .ok (some ((intTimes num 1000000 : Nat) : Int))
        else .ok (some ((intTimes num 1 : Nat) : Int))
  | .other => .ok none

/-! ## Stage and qualification classifier (`AutoImportAgent._determine_stage`)

`extracted_data` is viewed through the typed data model of the slots:
text slots hold strings, budget slots hold integers.  A slot is *present*
when its value is non-null and Python-truthy (a non-empty string, a
non-zero number) — exactly the test `data.get(slot)` performs. -/

inductive Tier where
  | hot | warm | cold
deriving DecidableEq

inductive Stage where
  | discovery | qualification | closing | completed
deriving DecidableEq

structure ExtractedData where
  car_brand : Option String
  car_model : Option String
  budget_min : Option Int
  budget_max : Option Int
  country : Option String
  timeline : Option String
  body_type : Option String
  name : Option String
  phone : Option String
deriving DecidableEq

/-- Python truthiness of an optional string slot value. -/
def truthyS : Option String → Bool
  | none => false
  | some s => !s.isEmpty

/-- Python truthiness of an optional integer slot value. -/
def truthyI : Option Int → Bool
  | none => false
  | some n => n != 0

/-- Model of `any([data.get("car_brand"), data.get("budget_max"), data.get("body_type")])`. -/
def has_basic_info (d : ExtractedData) : Bool :=
  truthyS d.car_brand || truthyI d.budget_max || truthyS d.body_type

/-- Model of `all([data.get(slot) for slot in REQUIRED_FOR_QUALIFICATION])`. -/
def has_qualification_info (d : ExtractedData) : Bool :=
  truthyS d.car_brand && truthyI d.budget_max

/-- Model of `all([data.get(slot) for slot in REQUIRED_FOR_CLOSING])`. -/
def has_contact_info (d : ExtractedData) : Bool :=
  truthyS d.name && truthyS d.phone

/-- Model of `data.get("budget_max", 0)` on the typed view. -/
def budgetOf (d : ExtractedData) : Int := d.budget_max.getD 0

/-- Model of the test `"срочно" in timeline or "быстр" in timeline` after
`data.get("timeline", "").lower()`. -/
def urgentTimeline (d : ExtractedData) : Bool :=
  let tl := pyLowerList (d.timeline.getD "").toList
  containsSeq "срочно".toList tl || containsSeq "быстр".toList tl

/-- The qualification half of `_determine_stage`: `q0` is the value of
`state["lead_qualification"]` on entry (always `None` within a turn). -/
def determineQualification (d : ExtractedData) (q0 : Option Tier) : Option Tier :=
  if has_contact_info d && has_qualification_info d then
    if budgetOf d ≥ 3000000 || urgentTimeline d then some .hot
    else if budgetOf d ≥ 1500000 || has_basic_info d then some .warm
    else some .cold
  else q0

/-- The stage half of `_determine_stage`. -/
def determineStageOnly (d : ExtractedData) : Stage :=
  if !(has_basic_info d) then .discovery
  else if !(has_qualification_info d) then .qualification
  else if !(has_contact_info d) then .closing
  else .completed

/-- Model of `AutoImportAgent._determine_stage`: updates `lead_qualification` and
`current_stage` of the state. -/
def determine_stage (d : ExtractedData) (q0 : Option Tier) : Option Tier × Stage :=
  (determineQualification d q0, determineStageOnly d)

/-- The stage rule as the specification words it: first-match over the three
presence predicates. -/
def stageSpec (d : ExtractedData) : Stage :=
  if !(has_basic_info d) then .discovery
  else if has_basic_info d && !(has_qualification_info d) then .qualification
  else if has_qualification_info d && !(has_contact_info d) then .closing
  else .completed

/-- The qualification tiers as the specification words them. -/
def tierSpec (d : ExtractedData) : Tier :=
  if budgetOf d ≥ 3000000 || urgentTimeline d then .hot
  else if budgetOf d ≥ 1500000 || has_basic_info d then .warm
  else .cold

/-- The mapping with no slot known. -/
def dataEmpty : ExtractedData :=
  ⟨none, none, none, none, none, none, none, none, none⟩

/-- Model of `{car_brand: "X"}`. -/
def dataBrandOnly : ExtractedData :=
  ⟨some "X", none, none, none, none, none, none, none, none⟩

/-- Model of `{car_brand: "X", budget_max: 2_000_000}`. -/
def dataBrandBudget : ExtractedData :=
  ⟨some "X", none, none, some 2000000, none, none, none, none, none⟩

/-- Model of `{car_brand: "X", budget_max: 2_000_000, name: "Y", phone: "Z"}`. -/
def dataFull2M : ExtractedData :=
  ⟨some "X", none, none, some 2000000, none, none, none, some "Y", some "Z"⟩

/-- Model of `{car_brand: "X", budget_max: 5_000_000, name: "Y", phone: "Z"}`. -/
def dataFull5M : ExtractedData :=
  ⟨some "X", none, none, some 5000000, none, none, none, some "Y", some "Z"⟩

/-! ## Error taxonomy and resilience layer (`backend/errors.py`) -/

/-- The exception raised by the underlying OpenAI client. -/
inductive PyError where
  | rateLimit
  | connection
  | timedOut
  | auth
  | apiError (msg : String)
  | unknown (msg : String)
deriving DecidableEq

/-- An `AIServiceError` instance: internal message, user-facing message,
recoverable flag. -/
structure AIServiceError where
  message : String
  user_message : String
  recoverable : Bool
deriving DecidableEq

/-- Model of `handle_openai_error`: conversion of client exceptions into the
project's taxonomy, with the exact user-facing messages of `errors.py`. -/
def handle_openai_error : PyError → AIServiceError
  | .rateLimit =>
    ⟨"OpenAI rate limit exceeded",
     "Сервис временно перегружен. Пожалуйста, подождите несколько секунд и попробуйте снова.",
     true⟩
  | .connection =>
    ⟨"Failed to connect to OpenAI API",
     "Не удалось подключиться к сервису. Проверьте интернет-соединение.",
     true⟩
  | .timedOut =>
    ⟨"OpenAI API request timed out",
     "Запрос занял слишком много времени. Попробуйте ещё раз.",
     true⟩
  | .auth =>
    ⟨"OpenAI API authentication failed",
     "Ошибка конфигурации сервиса. Обратитесь к администратору.",
     false⟩
  | .apiError msg =>
    ⟨msg, "Произошла ошибка при обработке запроса. Попробуйте ещё раз.", true⟩
  | .unknown msg =>
    ⟨msg, "Произошла непредвиденная ошибка. Мы уже работаем над её устранением.", true⟩

/-- The classes of the first `except` clause of the retry loop:
`(RateLimitError, APIConnectionError, APITimeoutError)`. -/
def isTransient : PyError → Bool
  | .rateLimit => true
  | .connection => true
  | .timedOut => true
  | _ => false

/-- A transient failure class, for quantifying over retried failures. -/
inductive TransientKind where
  | rateLimit | connection | timedOut
deriving DecidableEq

def TransientKind.toPyError : TransientKind → PyError
  | .rateLimit => .rateLimit
  | .connection => .connection
  | .timedOut => .timedOut

/-- One attempt of the wrapped coroutine: a value or a raised exception. -/
inductive CallOutcome (α : Type) where
  | ok (v : α)
  | err (e : PyError)

/-- Result of a `with_retry`-wrapped call: the delays slept (in order) and
either a value (`some` — or `none` for the implicit `None` return when
`max_retries = 0`) or the raised `AIServiceError`. -/
structure RetryOutcome (α : Type) where
  result : Except AIServiceError (Option α)
  delays : List Rat

/-- The retry loop of `with_retry`, by recursion on the remaining attempts;
`total` is `max_retries`, the attempt index is `total - remaining`. -/
def retryAux {α : Type} (call : Nat → CallOutcome α) (base maxD : Rat)
    (total : Nat) : Nat → List Rat → Option PyError → RetryOutcome α
  | 0, delays, lastE =>
    match lastE with
    | some e => ⟨.error (handle_openai_error e), delays⟩
    | none => ⟨.ok none, delays⟩
  | remaining + 1, delays, _ =>
    let attempt := total - (remaining + 1)
    match call attempt with
    | .ok v => ⟨.ok (some v), delays⟩
    | .err e =>
      if isTransient e then
        if remaining = 0 then ⟨.error (handle_openai_error e), delays⟩
        else retryAux call base maxD total remaining
          (delays ++ [min (base * 2 ^ attempt) maxD]) (some e)
      else ⟨.error (handle_openai_error e), delays⟩

/-- A call wrapped by `with_retry(max_retries, base_delay, max_delay)` with
exponential backoff, applied to an oracle whose behaviour on attempt `n`
is `call n`. -/
def with_retry_run {α : Type} (call : Nat → CallOutcome α)
    (base maxD : Rat) (total : Nat) : RetryOutcome α :=
  retryAux call base maxD total total [] none

/-- Model of `FALLBACK_RESPONSES`. -/
def FALLBACK_RESPONSES : List (String × String) :=
  [("greeting", "Здравствуйте! 👋 Я консультант АвтоИмпорт Pro. К сожалению, сейчас у меня технические сложности, но я скоро вернусь. Оставьте ваш вопрос, и мы обязательно свяжемся с вами!"),
   ("general", "Извините, возникла техническая ошибка. Пожалуйста, попробуйте ещё раз через несколько секунд. Если проблема повторится — оставьте ваш телефон, и менеджер свяжется с вами."),
   ("rate_limit", "Сервис временно перегружен из-за большого количества запросов. Пожалуйста, подождите 10-15 секунд и попробуйте снова."),
   ("simulator", "Симулятор временно недоступен. Попробуйте позже или выберите другой тип клиента.")]

/-- Model of `get_fallback_response`. -/
def get_fallback_response (context : String) : String :=
  (FALLBACK_RESPONSES.lookup context).getD
    ((FALLBACK_RESPONSES.lookup "general").getD "")

/-- Model of `ErrorContext` (the last-error timestamp is irrelevant to the claims
and omitted; it influences no decision in the source). -/
structure ErrorContext where
  error_count : Nat
  consecutive_errors : Nat
deriving DecidableEq

def ErrorContext.record_error (c : ErrorContext) : ErrorContext :=
  ⟨c.error_count + 1, c.consecutive_errors + 1⟩

def ErrorContext.record_success (c : ErrorContext) : ErrorContext :=
  ⟨c.error_count, 0⟩

def ErrorContext.should_use_fallback (c : ErrorContext) : Bool :=
  c.consecutive_errors ≥ 3

/-! ## Slot extraction and merge (`AutoImportAgent._extract_slots`)

Here `extracted_data` is modelled untyped, as the Python dictionary is: a
map from the fixed slot keys to optional dynamically-typed values, since
the oracle payload may put a string where a number is expected. -/

inductive SlotKey where
  | car_brand | car_model | budget_min | budget_max | country
  | timeline | body_type | name | phone
deriving DecidableEq

/-- A dynamically-typed slot value coming from the oracle payload. -/
inductive PyVal where
  | str (s : String)
  | int (n : Int)
  | float (q : Rat)
deriving DecidableEq

/-- The accumulated `state["extracted_data"]` dictionary. -/
def SlotMap := SlotKey → Option PyVal

/-- Model of `AutoImportAgent.SLOTS`. -/
def SLOTS : List SlotKey :=
  [.car_brand, .car_model, .budget_min, .budget_max, .country,
   .timeline, .body_type, .name, .phone]

/-- Dictionary update `state["extracted_data"][key] = value`. -/
def updateSlot (m : SlotMap) (k : SlotKey) (v : Option PyVal) : SlotMap :=
  fun k2 => if k2 = k then v else m k2

/-- One iteration of the merge loop over `extracted.items()`: null values
are skipped; budget values that are strings are passed through
`_parse_budget` (whose result may be null, and which may raise). -/
def mergeStep (m : SlotMap) (item : SlotKey × Option PyVal) :
    Except Unit SlotMap :=
  match item.2 with
  | none => .ok m
  | some v =>
    if item.1 = .budget_min ∨ item.1 = .budget_max then
      match v with
      | .str s =>
        match parse_budget (.str s) with
        | .error e => .error e
        | .ok r => .ok (updateSlot m item.1 (r.map PyVal.int))
      | _ => .ok (updateSlot m item.1 (some v))
    else .ok (updateSlot m item.1 (some v))

/-- The whole merge loop.  An exception from `_parse_budget` aborts the loop;
it is caught by the surrounding generic handler, so the mutations applied so
far are kept (the boolean records that an exception occurred). -/
def mergeAll (m : SlotMap) : List (SlotKey × Option PyVal) → SlotMap × Bool
  | [] => (m, false)
  | item :: rest =>
    match mergeStep m item with
    | .error _ => (m, true)
    | .ok m2 => mergeAll m2 rest

/-- Model of `missing_slots`: the fixed slot list filtered to the keys still null. -/
def computeMissing (m : SlotMap) : List SlotKey :=
  SLOTS.filter (fun k => (m k).isNone)

/-- Outcome of the extraction oracle call as seen by `_extract_slots`:
a parsed payload (after markdown stripping), a payload that fails JSON
parsing, a resilience-exhausted `AIServiceError`, or any other unexpected
exception. -/
inductive OracleExtraction where
  | payload (items : List (SlotKey × Option PyVal))
  | malformed
  | aiFailure (e : AIServiceError)
  | unexpected

/-- Result of the `_extract_slots` node: the updated slot dictionary, the
recomputed `missing_slots`, and the turn's `error` field. -/
structure ExtractResult where
  data : SlotMap
  missing : List SlotKey
  error : Option String

/-- Model of `AutoImportAgent._extract_slots` with the oracle call abstracted:
`err0` is the `error` field on entry (`None` at the start of a turn). -/
def extract_slots (m : SlotMap) (err0 : Option String)
    (o : OracleExtraction) : ExtractResult :=
  match o with
  | .payload items =>
    let m2 := (mergeAll m items).1
    ⟨m2, computeMissing m2, err0⟩
  | .malformed => ⟨m, computeMissing m, err0⟩
  | .aiFailure e => ⟨m, computeMissing m, some e.user_message⟩
  | .unexpected => ⟨m, computeMissing m, err0⟩

/-- Python truthiness of an untyped slot lookup. -/
def truthyV : Option PyVal → Bool
  | none => false
  | some (.str s) => !s.isEmpty
  | some (.int n) => n != 0
  | some (.float q) => q != 0

/-- Model of `has_basic_info` over the untyped dictionary. -/
def has_basic_infoM (m : SlotMap) : Bool :=
  truthyV (m .car_brand) || truthyV (m .budget_max) || truthyV (m .body_type)

/-- Model of `has_qualification_info` over the untyped dictionary. -/
def has_qualification_infoM (m : SlotMap) : Bool :=
  truthyV (m .car_brand) && truthyV (m .budget_max)

/-- Model of `has_contact_info` over the untyped dictionary. -/
def has_contact_infoM (m : SlotMap) : Bool :=
  truthyV (m .name) && truthyV (m .phone)

/-- The stage rule of `_determine_stage` over the untyped dictionary (the
stage rule only tests truthiness, never values). -/
def stageM (m : SlotMap) : Stage :=
  if !(has_basic_infoM m) then .discovery
  else if !(has_qualification_infoM m) then .qualification
  else if !(has_contact_infoM m) then .closing
  else .completed

/-! ## Response orchestrator (`AutoImportAgent._generate_response`) -/

/-- Behaviour of the generation calls on the normal path, abstracted:
a final assistant text, a raised `AIServiceError`, or any other exception
with its `str(e)` text. -/
inductive GenOutcome where
  | success (content : String)
  | aiFailure (e : AIServiceError)
  | unexpected (msg : String)

/-- Observable effect of one `_generate_response` invocation. -/
structure GenResult where
  ctx : ErrorContext
  oracleCalled : Bool
  reply : String
  errorSet : Option String
deriving DecidableEq

/-- Model of `AutoImportAgent._generate_response`, with the oracle calls (and the
tool-call branch they may trigger) abstracted into `o`. -/
def generate_response (c : ErrorContext) (o : GenOutcome) : GenResult :=
  if c.should_use_fallback then
    ⟨c, false, get_fallback_response "general", none⟩
  else
    match o with
    | .success content => ⟨c.record_success, true, content, none⟩
    | .aiFailure e => ⟨c.record_error, true, e.user_message, some e.user_message⟩
    | .unexpected msg => ⟨c.record_error, true, get_fallback_response "general", some msg⟩

/-- The `ErrorContext` evolution over a sequence of turns. -/
def runTurns (c : ErrorContext) (os : List GenOutcome) : ErrorContext :=
  os.foldl (fun ctx o => (generate_response ctx o).ctx) c

/-! ## Turn coordinator (`AutoImportAgent.process_message`) -/

/-- Outcome of `self.graph.ainvoke(initial_state)`: the final state's
relevant fields, or the exception that escaped the pipeline.  The local
`extracted_data` of `process_message` is the *same dict object* as
`initial_state["extracted_data"]`, and `_extract_slots` mutates it in
place; an exception can be raised after that merge (the knowledge lookup
sits outside the `try` of `_generate_response`, and `_determine_stage`
can raise on junk-typed values), so each failure constructor carries
`data`: the state of that shared dictionary at the moment the exception
was raised. -/
inductive PipelineOutcome where
  | success (response : String) (data : SlotMap) (stage : Stage)
      (qual : Option Tier) (err : Option String)
  | aiServiceFailure (e : AIServiceError) (data : SlotMap)
  | unexpectedFailure (msg : String) (data : SlotMap)

/-- The dictionary `process_message` returns.  `error = none` models the
`"error"` key being absent from the dictionary; `error = some none` models
the key present with value `None`; `error = some (some m)` the key present
with message `m`. -/
structure TurnOutcome where
  response : String
  session_id : String
  extracted_data : SlotMap
  lead_status : String
  qualification : Option Tier
  error : Option (Option String)

/-- The string stored in `lead_status` for a funnel stage. -/
def stageToString : Stage → String
  | .discovery => "discovery"
  | .qualification => "qualification"
  | .closing => "closing"
  | .completed => "completed"

/-- Model of `if not session_id: session_id = str(uuid.uuid4())[:8]` — a falsy
(absent or empty) session id is replaced by the fresh one. -/
def resolveSessionId (sid : Option String) (fresh : String) : String :=
  match sid with
  | none => fresh
  | some s => if s.isEmpty then fresh else s

/-- The empty dictionary `{}`. -/
def emptySlotMap : SlotMap := fun _ => none

/-- Model of `AutoImportAgent.process_message`: `fresh` abstracts the generated
uuid, `loaded` the slots seeded from persistence (already filtered of
null values), and `pipeline` the graph invocation on the non-empty
message.  The `except` arms return the local `extracted_data` variable —
the dictionary the pipeline was seeded with and may already have merged
into in place before raising, i.e. the `data` carried by the failure
(equal to the seed exactly when the failure preceded any merge; a
post-merge state is `(mergeAll loaded items).1`), so the body reads the
seeded dictionary only through the outcome.  Every path returns a
`TurnOutcome`; no exception escapes. -/
def process_message (message : String) (sid : Option String) (fresh : String)
    (_loaded : SlotMap) (pipeline : PipelineOutcome) : TurnOutcome :=
  let sessionId := resolveSessionId sid fresh
  if pyBlank message then
    ⟨"Пожалуйста, напишите ваш вопрос.", sessionId, emptySlotMap,
      "discovery", none, none⟩
  else
    match pipeline with
    | .success resp data stage qual err =>
      ⟨resp, sessionId, data, stageToString stage, qual, some err⟩
    | .aiServiceFailure e data =>
      ⟨e.user_message, sessionId, data, "error", none, some (some e.user_message)⟩
    | .unexpectedFailure msg data =>
      ⟨get_fallback_response "general", sessionId, data, "error", none, some (some msg)⟩

/-! ## Theorems -/

/-- Helper: `has_qualification_info` forces `has_basic_info`, since a truthy
`car_brand` already satisfies the disjunction. -/
theorem qual_implies_basic (d : ExtractedData)
    (h : has_qualification_info d = true) : has_basic_info d = true := by
  unfold has_qualification_info at h
  unfold has_basic_info
  cases h1 : truthyS d.car_brand <;> simp_all

/-- C1.  Stage classification: for every `extracted_data` mapping, the stage
computed by `_determine_stage` is the first-match rule over the three
presence predicates (`present` meaning a non-null Python-truthy value), and
the four concrete examples hold: `{brand}` is `qualification`, `{}` is
`discovery`, `{brand, budget_max}` is `closing`, and
`{brand, budget_max, name, phone}` is `completed`. -/
theorem stage_classification_first_match :
    (∀ (d : ExtractedData) (q0 : Option Tier),
      (determine_stage d q0).2 = stageSpec d) ∧
    (determine_stage dataBrandOnly none).2 = Stage.qualification ∧
    (determine_stage dataEmpty none).2 = Stage.discovery ∧
    (determine_stage dataBrandBudget none).2 = Stage.closing ∧
    (determine_stage dataFull2M none).2 = Stage.completed := by
  refine ⟨fun d q0 => ?_, by decide, by decide, by decide, by decide⟩
  show determineStageOnly d = stageSpec d
  cases hb : has_basic_info d <;> cases hq : has_qualification_info d <;>
    cases hc : has_contact_info d <;>
      simp [determineStageOnly, stageSpec, hb, hq, hc]

/-- C2.  Lead qualification tier: whenever both `has_contact_info` and
`has_qualification_info` hold, `_determine_stage` assigns the tier given
by the hot/warm/cold thresholds (`hot` for budget ≥ 3,000,000 or an urgent
timeline, else `warm` for budget ≥ 1,500,000 or `has_basic_info`, else
`cold`); otherwise the tier is left at its entry value — `null` within a
turn.  Qualification-ready slots with budget 5,000,000 yield `hot`, and
`{brand, budget_max 2,000,000, name, phone}` yields `warm`. -/
theorem qualification_tier_rule :
    (∀ (d : ExtractedData) (q0 : Option Tier),
      (determine_stage d q0).1 =
        if has_contact_info d && has_qualification_info d
        then some (tierSpec d) else q0) ∧
    (determine_stage dataFull5M none).1 = some Tier.hot ∧
    (determine_stage dataFull2M none).1 = some Tier.warm ∧
    (determine_stage dataBrandBudget none).1 = none := by
  refine ⟨fun d q0 => ?_, by decide, by decide, by decide⟩
  show determineQualification d q0 = _
  unfold determineQualification tierSpec
  cases hpc : (has_contact_info d && has_qualification_info d) <;> simp [hpc]
  by_cases h3 : 3000000 ≤ budgetOf d ∨ urgentTimeline d = true <;>
    by_cases h15 : 1500000 ≤ budgetOf d ∨ has_basic_info d = true <;>
      simp [h3, h15]

/-- C8.  The `cold` tier is unreachable within a turn: starting from the
per-turn `null` qualification, `_determine_stage` only ever leaves the tier
unassigned or assigns `hot` or `warm`, because `has_qualification_info`
forces `has_basic_info`, which makes the `warm` guard true whenever the
`hot` guard is not. -/
theorem cold_tier_unreachable :
    ∀ d : ExtractedData, (determine_stage d none).1 = none ∨
      (determine_stage d none).1 = some Tier.hot ∨
      (determine_stage d none).1 = some Tier.warm := by
  intro d
  show determineQualification d none = none ∨ _ ∨ _
  unfold determineQualification
  cases hc : has_contact_info d <;> cases hq : has_qualification_info d
  case false.false => simp [hc, hq]
  case false.true => simp [hc, hq]
  case true.false => simp [hc, hq]
  case true.true =>
  have hb := qual_implies_basic d hq
  by_cases h3 : 3000000 ≤ budgetOf d ∨ urgentTimeline d = true <;>
    simp [determine_stage, determineQualification, hc, hq, h3, hb]

/-- C3 counterexample.  The claim promises that every string input yields an
integer or null with no exception, but on the input `"."` the first
digit-and-dot run is `"."`, which `float(...)` rejects, so `_parse_budget`
raises an uncaught `ValueError` instead of returning. -/
theorem budget_parse_dot_raises :
    parse_budget (BudgetInput.str ".") = Except.error () := rfl

/-- C3 amended.  Budget normalizer: numeric inputs truncate to integer;
for a string, after lowercasing, removing spaces and turning commas into
dots, the first digit-and-dot run is taken: no run yields null with no
exception; a run that parses as the number `n` yields `int(n * 10^6)` under
a million-class marker, else `int(n * 10^3)` under a thousand-class marker,
else `int(n * 10^6)` when `n < 100`, else `int(n)`; but a run that is not a
valid float literal (no digit, or more than one dot) raises an exception.
`"2"` yields 2,000,000; `"2.5млн"` yields 2,500,000; `"500тыс"` yields
500,000. -/
theorem budget_normalizer_amended :
    (∀ n : Int, parse_budget (.int n) = .ok (some n)) ∧
    (∀ q : Rat, parse_budget (.float q) = .ok (some (pyInt q))) ∧
    (∀ s : String, firstNumRun (normalizeBudgetText s) = none →
      parse_budget (.str s) = .ok none) ∧
    (∀ (s : String) (run : List Char) (n : DecNum),
      firstNumRun (normalizeBudgetText s) = some run →
      pyFloatOfRun run = some n →
      millionMarker (normalizeBudgetText s) = true →
      parse_budget (.str s) = .ok (some ((intTimes n 1000000 : Nat) : Int))) ∧
    (∀ (s : String) (run : List Char) (n : DecNum),
      firstNumRun (normalizeBudgetText s) = some run →
      pyFloatOfRun run = some n →
      millionMarker (normalizeBudgetText s) = false →
      thousandMarker (normalizeBudgetText s) = true →
      parse_budget (.str s) = .ok (some ((intTimes n 1000 : Nat) : Int))) ∧
    (∀ (s : String) (run : List Char) (n : DecNum),
      firstNumRun (normalizeBudgetText s) = some run →
      pyFloatOfRun run = some n →
      millionMarker (normalizeBudgetText s) = false →
      thousandMarker (normalizeBudgetText s) = false →
      ltHundred n = true →
      parse_budget (.str s) = .ok (some ((intTimes n 1000000 : Nat) : Int))) ∧
    (∀ (s : String) (run : List Char) (n : DecNum),
      firstNumRun (normalizeBudgetText s) = some run →
      pyFloatOfRun run = some n →
      millionMarker (normalizeBudgetText s) = false →
      thousandMarker (normalizeBudgetText s) = false →
      ltHundred n = false →
      parse_budget (.str s) = .ok (some ((intTimes n 1 : Nat) : Int))) ∧
    (∀ (s : String) (run : List Char),
      firstNumRun (normalizeBudgetText s) = some run →
      pyFloatOfRun run = none →
      parse_budget (.str s) = .error ()) ∧
    parse_budget (.str "2") = .ok (some 2000000) ∧
    parse_budget (.str "2.5млн") = .ok (some 2500000) ∧
    parse_budget (.str "500тыс") = .ok (some 500000) := by
  refine ⟨fun n => rfl, fun q => rfl, ?_, ?_, ?_, ?_, ?_, ?_, rfl, rfl, rfl⟩
  · intro s h1
    simp [parse_budget, h1]
  · intro s run n h1 h2 h3
    simp [parse_budget, h1, h2, h3]
  · intro s run n h1 h2 h3 h4
    simp [parse_budget, h1, h2, h3, h4]
  · intro s run n h1 h2 h3 h4 h5
    simp [parse_budget, h1, h2, h3, h4, h5]
  · intro s run n h1 h2 h3 h4 h5
    simp [parse_budget, h1, h2, h3, h4, h5]
  · intro s run h1 h2
    simp [parse_budget, h1, h2]

/-- C3 witness: each hypothesis-bearing case of the amended budget theorem,
discharged at a concrete input: `"много"` has no digit run, `"2.5млн"`
takes the million branch, `"500тыс"` the thousand branch, `"2"` the
bare-small-number branch, `"500"` the literal branch, and `"."` the
exception branch. -/
theorem budget_normalizer_amended_witness :
    (firstNumRun (normalizeBudgetText "много") = none ∧
      parse_budget (.str "много") = .ok none) ∧
    (firstNumRun (normalizeBudgetText "2.5млн") = some ['2', '.', '5'] ∧
      pyFloatOfRun ['2', '.', '5'] = some ⟨25, 1⟩ ∧
      millionMarker (normalizeBudgetText "2.5млн") = true ∧
      parse_budget (.str "2.5млн") = .ok (some ((intTimes ⟨25, 1⟩ 1000000 : Nat) : Int))) ∧
    (firstNumRun (normalizeBudgetText "500тыс") = some ['5', '0', '0'] ∧
      pyFloatOfRun ['5', '0', '0'] = some ⟨500, 0⟩ ∧
      millionMarker (normalizeBudgetText "500тыс") = false ∧
      thousandMarker (normalizeBudgetText "500тыс") = true ∧
      parse_budget (.str "500тыс") = .ok (some ((intTimes ⟨500, 0⟩ 1000 : Nat) : Int))) ∧
    (firstNumRun (normalizeBudgetText "2") = some ['2'] ∧
      pyFloatOfRun ['2'] = some ⟨2, 0⟩ ∧
      ltHundred ⟨2, 0⟩ = true ∧
      parse_budget (.str "2") = .ok (some ((intTimes ⟨2, 0⟩ 1000000 : Nat) : Int))) ∧
    (firstNumRun (normalizeBudgetText "500") = some ['5', '0', '0'] ∧
      pyFloatOfRun ['5', '0', '0'] = some ⟨500, 0⟩ ∧
      ltHundred ⟨500, 0⟩ = false ∧
      parse_budget (.str "500") = .ok (some ((intTimes ⟨500, 0⟩ 1 : Nat) : Int))) ∧
    (firstNumRun (normalizeBudgetText ".") = some ['.'] ∧
      pyFloatOfRun ['.'] = none ∧
      parse_budget (.str ".") = .error ()) := by
  refine ⟨⟨by decide, budget_normalizer_amended.2.2.1 "много" (by decide)⟩,
    ⟨by decide, by decide, by decide,
      budget_normalizer_amended.2.2.2.1 "2.5млн" ['2', '.', '5'] ⟨25, 1⟩
        (by decide) (by decide) (by decide)⟩,
    ⟨by decide, by decide, by decide, by decide,
      budget_normalizer_amended.2.2.2.2.1 "500тыс" ['5', '0', '0'] ⟨500, 0⟩
        (by decide) (by decide) (by decide) (by decide)⟩,
    ⟨by decide, by decide, by decide,
      budget_normalizer_amended.2.2.2.2.2.1 "2" ['2'] ⟨2, 0⟩
        (by decide) (by decide) (by decide) (by decide) (by decide)⟩,
    ⟨by decide, by decide, by decide,
      budget_normalizer_amended.2.2.2.2.2.2.1 "500" ['5', '0', '0'] ⟨500, 0⟩
        (by decide) (by decide) (by decide) (by decide) (by decide)⟩,
    ⟨by decide, by decide,
      budget_normalizer_amended.2.2.2.2.2.2.2.1 "." ['.']
        (by decide) (by decide)⟩⟩

/-- A slot dictionary with a known budget, against which the merge is run. -/
def mapBudget5M : SlotMap :=
  fun k => if k = SlotKey.budget_max then some (PyVal.int 5000000) else none

/-- C4.  Slot-merge monotonicity fails on the code: the loop guards
`if value is not None`, but a budget slot whose extracted value is a
non-null string is converted by `_parse_budget` afterwards, and the
(possibly null) conversion result is assigned unconditionally.  Merging
`{budget_max: 5000000}` with the extraction `{budget_max: "много"}`
(a non-null string with no digits) sets `budget_max` to null, although the
non-budget path and the null-extraction path do keep previous values
(shown by the two positive conjuncts). -/
theorem merge_nulls_out_known_budget :
    mapBudget5M SlotKey.budget_max = some (PyVal.int 5000000) ∧
    (mergeAll mapBudget5M
      [(SlotKey.budget_max, some (PyVal.str "много"))]).1 SlotKey.budget_max
      = none ∧
    (mergeAll mapBudget5M [(SlotKey.budget_max, none)]).1 SlotKey.budget_max
      = some (PyVal.int 5000000) ∧
    (∀ (m : SlotMap) (k : SlotKey),
      (mergeAll m [(k, none)]).1 k = m k) := by
  refine ⟨rfl, rfl, rfl, fun m k => rfl⟩

/-- C5 counterexample.  An unrecognized failure does propagate immediately
with zero delays, but the error it is converted into carries
`recoverable = True` (the generic branch of `handle_openai_error`), not the
non-recoverable classification the claim asserts for unrecognized
failures. -/
theorem unknown_error_is_recoverable :
    (with_retry_run (fun _ => (.err (PyError.unknown "boom") : CallOutcome Nat))
        1 10 3).delays = [] ∧
    (with_retry_run (fun _ => (.err (PyError.unknown "boom") : CallOutcome Nat))
        1 10 3).result
      = Except.error (handle_openai_error (PyError.unknown "boom")) ∧
    (handle_openai_error (PyError.unknown "boom")).recoverable = true := by
  exact ⟨rfl, rfl, rfl⟩

/-- C5 amended.  Resilience retry semantics for
`with_retry(max_retries=3, base_delay=1.0)` (max delay 10): transient
failures are retried with delay `min(base * 2^attempt, max_delay)` between
attempts — two transient failures then a success return the successful
result after exactly the two delays `[1, 2]`; three transient failures
convert the last one through the taxonomy and raise it once after the same
two delays; an authentication failure propagates immediately with zero
delays as a non-recoverable error; an unrecognized failure also propagates
immediately with zero delays, but as a recoverable error. -/
theorem retry_semantics_amended :
    (∀ (e1 e2 : TransientKind) (v : Nat),
      with_retry_run (fun n => if n = 0 then .err e1.toPyError
        else if n = 1 then .err e2.toPyError else .ok v) 1 10 3
      = ⟨.ok (some v), [min (1 * 2 ^ 0) 10, min (1 * 2 ^ 1) 10]⟩) ∧
    ([min ((1 : Rat) * 2 ^ 0) 10, min ((1 : Rat) * 2 ^ 1) 10] = [1, 2]) ∧
    (∀ e1 e2 e3 : TransientKind,
      with_retry_run (fun n => if n = 0 then .err e1.toPyError
        else if n = 1 then .err e2.toPyError
        else (.err e3.toPyError : CallOutcome Nat)) 1 10 3
      = ⟨.error (handle_openai_error e3.toPyError),
          [min (1 * 2 ^ 0) 10, min (1 * 2 ^ 1) 10]⟩) ∧
    (∀ f : Nat → CallOutcome Nat,
      with_retry_run (fun n => if n = 0 then .err PyError.auth else f n) 1 10 3
      = ⟨.error (handle_openai_error PyError.auth), []⟩) ∧
    ((handle_openai_error PyError.auth).recoverable = false) ∧
    (∀ (msg : String) (f : Nat → CallOutcome Nat),
      with_retry_run (fun n => if n = 0 then .err (PyError.unknown msg) else f n)
        1 10 3
      = ⟨.error (handle_openai_error (PyError.unknown msg)), []⟩) ∧
    (∀ msg, (handle_openai_error (PyError.unknown msg)).recoverable = true) := by
  refine ⟨fun e1 e2 v => ?_, ?_, fun e1 e2 e3 => ?_, fun f => rfl, rfl,
    fun msg f => rfl, fun msg => rfl⟩
  · cases e1 <;> cases e2 <;> rfl
  · norm_num
  · cases e1 <;> cases e2 <;> cases e3 <;> rfl

/-- C6.  Slot-extraction failure handling: a malformed oracle payload leaves
the slot mapping unchanged, recomputes `missing_slots`, and does not set the
turn's `error` field; a resilience-exhausted `AIServiceError` sets `error`
to the failure's user-facing message, performs no extraction, and the stage
subsequently computed by the pipeline is that of the slots that already
existed. -/
theorem extraction_failure_handling :
    (∀ m : SlotMap,
      extract_slots m none .malformed = ⟨m, computeMissing m, none⟩) ∧
    (∀ (m : SlotMap) (e : AIServiceError),
      extract_slots m none (.aiFailure e)
        = ⟨m, computeMissing m, some e.user_message⟩) ∧
    (∀ (m : SlotMap) (e : AIServiceError),
      stageM (extract_slots m none (.aiFailure e)).data = stageM m) := by
  exact ⟨fun m => rfl, fun m e => rfl, fun m e => rfl⟩

/-- C7 counterexample.  On a whitespace-only message, the short-circuit
return of `process_message` is a five-field dictionary: the `error` key is
absent (`= none` in the model), so the outcome does not contain all six
fields the claim asserts. -/
theorem empty_message_outcome_lacks_error_field :
    (process_message "   " (some "abc") "f1" emptySlotMap
      (.unexpectedFailure "x" emptySlotMap)).error = none ∧
    (process_message "   " (some "abc") "f1" emptySlotMap
      (.unexpectedFailure "x" emptySlotMap)).response = "Пожалуйста, напишите ваш вопрос." ∧
    (process_message "   " (some "abc") "f1" emptySlotMap
      (.unexpectedFailure "x" emptySlotMap)).session_id = "abc" := by
  exact ⟨rfl, rfl, rfl⟩

/-- C7 amended.  Turn outcome contract: for every input message and every
pipeline behaviour (success, `AIServiceError`, or any other exception),
`process_message` returns a structured outcome — no exception escapes — and
the outcome carries the `error` field on every path except the
empty-message short-circuit, where the `error` key is absent (five fields).
An empty or whitespace-only message never reaches the pipeline and returns
the fixed prompt-for-input response, an empty slot mapping, stage
`discovery`, null qualification, under the session id provided (or the
freshly generated one when none or an empty one was given). -/
theorem turn_outcome_contract_amended :
    (∀ (m : String) (sid : Option String) (fresh : String) (loaded : SlotMap)
        (p : PipelineOutcome), pyBlank m = true →
      process_message m sid fresh loaded p
        = ⟨"Пожалуйста, напишите ваш вопрос.", resolveSessionId sid fresh,
            emptySlotMap, "discovery", none, none⟩) ∧
    (∀ (m : String) (sid : Option String) (fresh : String) (loaded : SlotMap)
        (p : PipelineOutcome), pyBlank m = false →
      (process_message m sid fresh loaded p).error.isSome = true) ∧
    (∀ fresh : String, resolveSessionId none fresh = fresh) ∧
    (∀ s fresh : String, s.isEmpty = false →
      resolveSessionId (some s) fresh = s) := by
  refine ⟨fun m sid fresh loaded p h => ?_, fun m sid fresh loaded p h => ?_,
    fun fresh => rfl, fun s fresh h => ?_⟩
  · simp [process_message, h]
  · cases p <;> simp [process_message, h]
  · simp [resolveSessionId, h]

/-- C7 witness: the amended contract applied at concrete inputs — the blank
message `" "` short-circuits, the message `"hi"` carries the `error` key on
each of the three pipeline behaviours, and the session id `"abc"` is kept. -/
theorem turn_outcome_contract_amended_witness :
    (pyBlank " " = true ∧
      process_message " " (some "abc") "f1" emptySlotMap
          (.success "ok" emptySlotMap Stage.discovery none none)
        = ⟨"Пожалуйста, напишите ваш вопрос.", resolveSessionId (some "abc") "f1",
            emptySlotMap, "discovery", none, none⟩) ∧
    (pyBlank "hi" = false ∧
      (process_message "hi" (some "abc") "f1" emptySlotMap
          (.success "ok" emptySlotMap Stage.discovery none none)).error.isSome
        = true ∧
      (process_message "hi" (some "abc") "f1" emptySlotMap
          (.aiServiceFailure (handle_openai_error PyError.auth)
            emptySlotMap)).error.isSome
        = true ∧
      (process_message "hi" (some "abc") "f1" emptySlotMap
          (.unexpectedFailure "boom" emptySlotMap)).error.isSome = true) ∧
    ("abc".isEmpty = false ∧ resolveSessionId (some "abc") "f1" = "abc") := by
  refine ⟨⟨by decide, turn_outcome_contract_amended.1 " " (some "abc") "f1"
      emptySlotMap _ (by decide)⟩,
    ⟨by decide,
      turn_outcome_contract_amended.2.1 "hi" (some "abc") "f1" emptySlotMap _
        (by decide),
      turn_outcome_contract_amended.2.1 "hi" (some "abc") "f1" emptySlotMap _
        (by decide),
      turn_outcome_contract_amended.2.1 "hi" (some "abc") "f1" emptySlotMap _
        (by decide)⟩,
    ⟨by decide, turn_outcome_contract_amended.2.2.2 "abc" "f1" (by decide)⟩⟩

/-- Helper: in fallback mode `_generate_response` emits the canned reply,
calls no oracle, and records neither success nor error. -/
theorem generate_response_fallback (c : ErrorContext) (o : GenOutcome)
    (h : c.should_use_fallback = true) :
    generate_response c o = ⟨c, false, get_fallback_response "general", none⟩ := by
  simp [generate_response, h]

/-- Helper: a fallback-mode context is preserved by every later turn. -/
theorem runTurns_fallback (c : ErrorContext) (os : List GenOutcome)
    (h : c.should_use_fallback = true) :
    (runTurns c os).should_use_fallback = true := by
  induction os generalizing c with
  | nil => exact h
  | cons o os ih =>
    show (runTurns (generate_response c o).ctx os).should_use_fallback = true
    rw [generate_response_fallback c o h]
    exact ih c h

/-- C9.  Fallback mode is permanent once entered: when the consecutive-error
streak has reached 3, `_generate_response` emits the canned degraded reply
without calling the oracle and without recording a success or an error, so
the `ErrorContext` is unchanged and every subsequent turn remains in
fallback mode. -/
theorem fallback_mode_permanent :
    (∀ (c : ErrorContext) (o : GenOutcome), c.should_use_fallback = true →
      generate_response c o
        = ⟨c, false, get_fallback_response "general", none⟩) ∧
    (∀ (c : ErrorContext) (os : List GenOutcome),
      c.should_use_fallback = true →
      (runTurns c os).should_use_fallback = true) := by
  exact ⟨generate_response_fallback, runTurns_fallback⟩

/-- C9 witness: a context with streak 3 stays in fallback through two more
turns, including turns whose oracle behaviour would have succeeded. -/
theorem fallback_mode_permanent_witness :
    (ErrorContext.should_use_fallback ⟨3, 3⟩ = true ∧
      generate_response ⟨3, 3⟩ (.success "ok")
        = ⟨⟨3, 3⟩, false, get_fallback_response "general", none⟩) ∧
    (runTurns ⟨3, 3⟩ [.success "ok", .success "again"]).should_use_fallback
      = true := by
  exact ⟨⟨by decide, fallback_mode_permanent.1 ⟨3, 3⟩ (.success "ok") (by decide)⟩,
    fallback_mode_permanent.2 ⟨3, 3⟩ [.success "ok", .success "again"] (by decide)⟩

/-- C10 counterexample.  The pipeline mutates the seeded `extracted_data`
dictionary in place and can raise afterwards, and the `except` arms return
that same dictionary: a turn seeded with `{}` whose extraction merged
`car_brand = "Toyota"` before the pipeline raised returns an outcome whose
`extracted_data` contains this turn's merge — not the unmodified
persistence-seeded slots the claim asserts. -/
theorem exception_path_returns_mutated_slots :
    (process_message "hi" (some "abc") "f1" emptySlotMap
        (.unexpectedFailure "boom"
          (mergeAll emptySlotMap
            [(SlotKey.car_brand, some (PyVal.str "Toyota"))]).1)).extracted_data
        SlotKey.car_brand = some (PyVal.str "Toyota") ∧
    emptySlotMap SlotKey.car_brand = none ∧
    (process_message "hi" (some "abc") "f1" emptySlotMap
        (.unexpectedFailure "boom"
          (mergeAll emptySlotMap
            [(SlotKey.car_brand, some (PyVal.str "Toyota"))]).1)).lead_status
      = "error" := by
  exact ⟨rfl, rfl, rfl⟩

/-- C10 amended.  Exception-path outcome shape: when the pipeline invocation
raises (an `AIServiceError` or any other exception) on a non-blank message,
`process_message` returns `lead_status = "error"` — a value outside the
four funnel stages — null qualification, a non-null `error` message, and
`extracted_data` equal to the slot dictionary in the state the failed turn
left it: the persistence-seeded slots plus whatever merges extraction
applied in place before the raise (`(mergeAll loaded items).1`), which is
the unmodified seed exactly when the failure preceded any merge
(`items = []`). -/
theorem exception_path_outcome_amended :
    (∀ (m : String) (sid : Option String) (fresh : String) (loaded : SlotMap)
        (items : List (SlotKey × Option PyVal)) (e : AIServiceError),
      pyBlank m = false →
      process_message m sid fresh loaded
          (.aiServiceFailure e (mergeAll loaded items).1)
        = ⟨e.user_message, resolveSessionId sid fresh, (mergeAll loaded items).1,
            "error", none, some (some e.user_message)⟩) ∧
    (∀ (m : String) (sid : Option String) (fresh : String) (loaded : SlotMap)
        (items : List (SlotKey × Option PyVal)) (msg : String),
      pyBlank m = false →
      process_message m sid fresh loaded
          (.unexpectedFailure msg (mergeAll loaded items).1)
        = ⟨get_fallback_response "general", resolveSessionId sid fresh,
            (mergeAll loaded items).1, "error", none, some (some msg)⟩) ∧
    (∀ loaded : SlotMap, (mergeAll loaded []).1 = loaded) ∧
    (([Stage.discovery, Stage.qualification, Stage.closing,
        Stage.completed].map stageToString).contains "error" = false) := by
  refine ⟨fun m sid fresh loaded items e h => ?_,
    fun m sid fresh loaded items msg h => ?_, fun loaded => rfl, by decide⟩
  · simp [process_message, h]
  · simp [process_message, h]

/-- C10 witness: the amended exception-path shape at concrete inputs — the
`AIServiceError` arm after a pre-raise merge of `car_brand`, the
generic-exception arm with no pre-raise merge (where the returned slots are
the unmodified seed), and the empty merge identity. -/
theorem exception_path_outcome_amended_witness :
    (pyBlank "hi" = false ∧
      process_message "hi" (some "abc") "f1" emptySlotMap
          (.aiServiceFailure (handle_openai_error PyError.auth)
            (mergeAll emptySlotMap
              [(SlotKey.car_brand, some (PyVal.str "Toyota"))]).1)
        = ⟨(handle_openai_error PyError.auth).user_message,
            resolveSessionId (some "abc") "f1",
            (mergeAll emptySlotMap
              [(SlotKey.car_brand, some (PyVal.str "Toyota"))]).1,
            "error", none,
            some (some (handle_openai_error PyError.auth).user_message)⟩) ∧
    (pyBlank "hi" = false ∧
      process_message "hi" (some "abc") "f1" emptySlotMap
          (.unexpectedFailure "boom" (mergeAll emptySlotMap []).1)
        = ⟨get_fallback_response "general", resolveSessionId (some "abc") "f1",
            (mergeAll emptySlotMap []).1, "error", none, some (some "boom")⟩) ∧
    (mergeAll emptySlotMap []).1 = emptySlotMap := by
  exact ⟨⟨by decide, exception_path_outcome_amended.1 "hi" (some "abc") "f1"
      emptySlotMap [(SlotKey.car_brand, some (PyVal.str "Toyota"))]
      (handle_openai_error PyError.auth) (by decide)⟩,
    ⟨by decide, exception_path_outcome_amended.2.1 "hi" (some "abc") "f1"
      emptySlotMap [] "boom" (by decide)⟩,
    exception_path_outcome_amended.2.2.1 emptySlotMap⟩

end AutoImport
